import Mathlib

/-!
Verification development for the migration execution engine of
`streamlit_app.py` (dual-DB data migration tool).

The Python source is shallowly embedded:

* cell values flowing through `normalize_rows_for_dest` become the inductive
  type `PValue` (Python `None` is `vnull`, float NaN / pandas NaT / NA are
  all collapsed into `nan`, since `pd.isna` treats them alike and every
  claim only observes them through `pd.isna`);
* a pandas `DataFrame` built from a list of uniform dict-rows is handled
  column-wise: `dfColumns` takes the keys of the first row, `colValues`
  extracts a column, and the output is rebuilt row-wise, exactly mirroring
  `pd.DataFrame(dict_rows)` / `.to_dict(orient="records")` for uniform rows;
* machine floats are modelled as exact fractions (`vfloat num den`); the
  rounding of Python `float` is ignored, no claim depends on float values;
* fallible code returns `Except String`: the only raising operation in
  `normalize_rows_for_dest` is `Series.astype("boolean")`, which raises
  `TypeError` when the series still holds plain strings.

Simplifications that are documented here once: `pyStr` prints floats and
dates in an approximate format (no claim observes those strings);
`pdToDatetimeCell` parses the ISO `YYYY-MM-DD[ HH:MM:SS]` subset of the
formats `pd.to_datetime` accepts; `jsonScan` is a shallow acceptor for
`json.loads`; dtype promotion of mixed int/None columns to float64 is not
modelled (claims never build such columns).
-/

deriving instance DecidableEq for Except

namespace DataMigration

/-- Python/pandas cell values as they appear in the migration chunks. -/
inductive PValue where
  | vnull
  | nan
  | vbool (b : Bool)
  | vint (n : Int)
  | vfloat (num : Int) (den : Nat)
  | vinf (neg : Bool)
  | vstr (s : String)
  | vdate (y : Int) (mo d : Nat)
  | vtime (hh mi ss : Nat)
  | vdatetime (y : Int) (mo d hh mi ss : Nat)
  | vobj (raw : String)
deriving DecidableEq, Repr

/-- Model of `pd.isna` on a single cell: `None`, NaN, NaT and NA are na. -/
def pdIsna : PValue → Bool
  | .vnull => true
  | .nan => true
  | _ => false

/-- Model of Python `str(x)` for the cell values (float/date formats are
approximate; no claim observes those strings). -/
def pyStr : PValue → String
  | .vnull => "None"
  | .nan => "nan"
  | .vbool true => "True"
  | .vbool false => "False"
  | .vint n => toString n
  | .vfloat num den => toString num ++ "/" ++ toString den
  | .vinf true => "-inf"
  | .vinf false => "inf"
  | .vstr s => s
  | .vdate y mo d => toString y ++ "-" ++ toString mo ++ "-" ++ toString d
  | .vtime hh mi ss => toString hh ++ ":" ++ toString mi ++ ":" ++ toString ss
  | .vdatetime y mo d hh mi ss =>
      toString y ++ "-" ++ toString mo ++ "-" ++ toString d ++ " " ++
      toString hh ++ ":" ++ toString mi ++ ":" ++ toString ss
  | .vobj raw => raw

/-!
Small executable string toolkit.  The Python string methods the source
uses (`strip`, `lower`, `upper`, `split`, `replace`, `startswith`, `in`)
are re-implemented structurally over the character list of the string
(ASCII case folding; the claims only involve ASCII data), so that every
definition evaluates by kernel reduction.
-/

/-- ASCII lower-casing of one character (Python `str.lower` on ASCII). -/
def asciiLowerChar (c : Char) : Char :=
  if 'A' ≤ c ∧ c ≤ 'Z' then Char.ofNat (c.toNat + 32) else c

/-- ASCII upper-casing of one character (Python `str.upper` on ASCII). -/
def asciiUpperChar (c : Char) : Char :=
  if 'a' ≤ c ∧ c ≤ 'z' then Char.ofNat (c.toNat - 32) else c

/-- Python `str.lower`. -/
def pyLower (s : String) : String := String.mk (s.data.map asciiLowerChar)

/-- Python `str.upper`. -/
def pyUpper (s : String) : String := String.mk (s.data.map asciiUpperChar)

/-- Whitespace stripped by Python `str.strip()`. -/
def isPyWhitespace (c : Char) : Bool :=
  c == ' ' || c == '\t' || c == '\n' || c == '\r' || c == '\x0b' || c == '\x0c'

/-- Python `str.strip()`. -/
def pyStrip (s : String) : String :=
  String.mk (((s.data.dropWhile isPyWhitespace).reverse.dropWhile isPyWhitespace).reverse)

/-- Whether the character list starts with the pattern. -/
def listStartsWith : List Char → List Char → Bool
  | _, [] => true
  | [], _ :: _ => false
  | c :: cs, p :: ps => c == p && listStartsWith cs ps

/-- Whether the nonempty pattern occurs somewhere in the character list. -/
def listOccurs : List Char → List Char → Bool
  | l, pat =>
    if listStartsWith l pat then true
    else match l with
    | [] => false
    | _ :: rest => listOccurs rest pat

/-- Python `s.startswith(pat)`. -/
def pyStartsWith (s pat : String) : Bool := listStartsWith s.data pat.data

/-- Python `s.endswith(pat)`. -/
def pyEndsWith (s pat : String) : Bool := listStartsWith s.data.reverse pat.data.reverse

/-- Fuel-driven replacement of every occurrence of a nonempty pattern
(the fuel is the list length, enough since each step consumes a
character). -/
def listReplaceAux : Nat → List Char → List Char → List Char → List Char
  | 0, l, _, _ => l
  | _ + 1, [], _, _ => []
  | fuel + 1, c :: rest, pat, repl =>
    if listStartsWith (c :: rest) pat then
      repl ++ listReplaceAux fuel ((c :: rest).drop pat.length) pat repl
    else c :: listReplaceAux fuel rest pat repl

/-- Python `s.replace(pat, repl)` for nonempty `pat`. -/
def pyReplace (s pat repl : String) : String :=
  String.mk (listReplaceAux s.data.length s.data pat.data repl.data)

/-- Split on a single separator character, Python `s.split(sep)`. -/
def listSplitOnChar (sep : Char) : List Char → List (List Char)
  | [] => [[]]
  | c :: rest =>
    let r := listSplitOnChar sep rest
    if c == sep then [] :: r
    else match r with
    | [] => [[c]]
    | g :: gs => (c :: g) :: gs

/-- Split a string on a single separator character. -/
def strSplitOnChar (sep : Char) (s : String) : List String :=
  (listSplitOnChar sep s.data).map String.mk

/-- Digit list to number (the list is known to be all digits). -/
def digitsToNat (l : List Char) : Nat :=
  l.foldl (fun acc c => acc * 10 + (c.toNat - '0'.toNat)) 0

/-- Whether the string is empty. -/
def pyIsEmpty (s : String) : Bool := s.data.isEmpty

/-- One dict row of a chunk: destination column name to value. -/
abbrev Row := List (String × PValue)

/-- One chunk (`dict_rows` in the source). -/
abbrev Batch := List Row

/-- Reading a field of a dict row; a missing key becomes NaN, as when
pandas aligns non-uniform dict rows into a DataFrame. -/
def rowLookup (r : Row) (c : String) : PValue :=
  (((r.find? (fun p => p.1 == c)).map (fun p => p.2))).getD .nan

/-- Columns of the DataFrame built from the rows (keys of the first row;
the claims only use uniform rows). -/
def dfColumns (b : Batch) : List String :=
  match b with
  | [] => []
  | r :: _ => r.map (fun p => p.1)

/-- Column extraction, `df[col]`. -/
def colValues (b : Batch) (c : String) : List PValue :=
  b.map (fun r => rowLookup r c)

/-- Lookup in the destination type map `type_map`. -/
def tmLookup (tm : List (String × String)) (c : String) : Option String :=
  ((tm.find? (fun p => p.1 == c)).map (fun p => p.2))

/-- Substring test, Python `pat in s` for nonempty `pat`. -/
def strContains (s pat : String) : Bool :=
  listOccurs s.data pat.data

/-- Truthy spellings accepted by the boolean branch. -/
def truthyList : List String := ["true", "t", "yes", "y", "1", "on"]

/-- Falsy spellings accepted by the boolean branch. -/
def falsyList : List String := ["false", "f", "no", "n", "0", "off"]

/-- Type-string test for the boolean branch, `"bool" in t`. -/
def isBoolType (t : String) : Bool := strContains t "bool"

/-- Type-string test for the integer branch. -/
def isIntType (t : String) : Bool :=
  ["int", "bigint", "smallint", "integer"].any (fun k => strContains t k)

/-- Type-string test for the numeric branch. -/
def isNumericType (t : String) : Bool :=
  ["numeric", "decimal", "float", "double", "real"].any (fun k => strContains t k)

/-- Type-string test for the timestamp branch. -/
def isTimestampType (t : String) : Bool :=
  strContains t "timestamp" || strContains t "timestamptz"

/-- Type-string test for the date branch. -/
def isDateType (t : String) : Bool := pyStartsWith t "date"

/-- Type-string test for the time branch. -/
def isTimeType (t : String) : Bool := pyStartsWith t "time"

/-- Type-string test for the UUID branch. -/
def isUuidType (t : String) : Bool := strContains t "uuid"

/-- Type-string test for the JSON branch. -/
def isJsonType (t : String) : Bool := strContains t "json"

/-- Type-string test for the text branch. -/
def isTextType (t : String) : Bool :=
  ["char", "text", "varchar", "string"].any (fun k => strContains t k)

/-- A declared type that matches none of the keyword tests falls through
every branch of `normalize_rows_for_dest` (the `# else: leave as-is` arm). -/
def isOpaqueType (t : String) : Bool :=
  !(isBoolType t) && !(isIntType t) && !(isNumericType t) &&
  !(isTimestampType t) && !(isDateType t) && !(isTimeType t) &&
  !(isUuidType t) && !(isJsonType t) && !(isTextType t)

/-- Recognizer for `vbool` cells (pandas bool dtype is all-bool columns). -/
def isVBool : PValue → Bool
  | .vbool _ => true
  | _ => false

/-- Recognizer for `vint` cells. -/
def isVInt : PValue → Bool
  | .vint _ => true
  | _ => false

/-- Recognizer for `vstr` cells. -/
def isVStr : PValue → Bool
  | .vstr _ => true
  | _ => false

/-- Model of `pd.api.types.is_bool_dtype`: a nonempty all-bool column. -/
def is_bool_dtype (vs : List PValue) : Bool :=
  !vs.isEmpty && vs.all isVBool

/-- Model of `pd.api.types.is_integer_dtype`: a nonempty all-int column
(a None or NaN would promote the column away from int64). -/
def is_integer_dtype (vs : List PValue) : Bool :=
  !vs.isEmpty && vs.all isVInt

/-- One cell of `s.astype("Int64").map({1: True, 0: False})`: 1 and 0 map
to booleans, every other integer falls out of the dict and becomes NA. -/
def boolFromIntCell (x : PValue) : PValue :=
  match x with
  | .vint n => if n = 1 then .vbool true else if n = 0 then .vbool false else .nan
  | _ => .nan

/-- One cell of the string path of the boolean branch: lower-cased stripped
string matched against the truthy/falsy sets; unrecognized goes to None
when coercing, else stays the (lower-cased) string for `astype` to choke on. -/
def boolStrCell (coerce : Bool) (x : PValue) : PValue :=
  let v := pyLower (pyStrip (pyStr x))
  if truthyList.contains v then .vbool true
  else if falsyList.contains v then .vbool false
  else if coerce then .vnull
  else .vstr v

/-- Model of `Series.astype("boolean")`: bool-likes and NA pass, a plain
string raises `TypeError`. -/
def astypeBoolean (vs : List PValue) : Except String (List PValue) :=
  if vs.any isVStr then .error "TypeError: Need to pass bool-like values"
  else .ok vs

/-- The boolean branch of `normalize_rows_for_dest` for one column. -/
def boolBranch (coerce : Bool) (vs : List PValue) : Except String (List PValue) :=
  if is_bool_dtype vs then .ok vs
  else if is_integer_dtype vs then astypeBoolean (vs.map boolFromIntCell)
  else astypeBoolean (vs.map (boolStrCell coerce))

/-- Python `str.isdigit` restricted to ASCII digits. -/
def pyIsDigit (s : String) : Bool :=
  !s.data.isEmpty && s.data.all Char.isDigit

/-- Python `str.lstrip("+-")`: drop every leading sign character. -/
def stripSignChars (s : String) : String :=
  String.mk (s.data.dropWhile (fun c => c == '+' || c == '-'))

/-- All-digit list to `Nat`, `none` when empty or not all digits. -/
def pyParseNat (l : List Char) : Option Nat :=
  if !l.isEmpty && l.all Char.isDigit then some (digitsToNat l) else none

/-- Python `int(s)` on an already-stripped string: one optional sign then
digits. -/
def pyIntOfString (s : String) : Option Int :=
  match s.data with
  | '+' :: rest => (pyParseNat rest).map Int.ofNat
  | '-' :: rest => (pyParseNat rest).map (fun n => -(Int.ofNat n))
  | l => (pyParseNat l).map Int.ofNat

/-- The `_to_int` closure of the integer branch. -/
def to_int (coerce : Bool) (x : PValue) : PValue :=
  if pdIsna x then .vnull
  else match x with
  | .vbool b => .vint (if b then 1 else 0)
  | .vint n => .vint n
  | _ =>
    let xs := pyStrip (pyStr x)
    if xs = "" then (if coerce then .vnull else x)
    else if pyIsDigit (stripSignChars xs) then
      match pyIntOfString xs with
      | some n => .vint n
      | none => if coerce then .vnull else x
    else if coerce then .vnull else x

/-- Digit-string core of a float literal: `digits[.digits]` as an exact
fraction, returned as numerator and power-of-ten exponent. -/
def parseDecimalCore (body : String) : Option (Nat × Nat) :=
  match listSplitOnChar '.' body.data with
  | [ip] => (pyParseNat ip).map (fun n => (n, 0))
  | [ip, fp] =>
    if ip.isEmpty && fp.isEmpty then none
    else
      match (if ip.isEmpty then some 0 else pyParseNat ip),
            (if fp.isEmpty then some 0 else pyParseNat fp) with
      | some i, some f => some (i * 10 ^ fp.length + f, fp.length)
      | _, _ => none
  | _ => none

/-- Assemble a float value from sign, mantissa numerator and a base-ten
exponent (fraction kept exact; Python float rounding is ignored). -/
def mkVFloat (neg : Bool) (n : Nat) (tenExp : Int) : PValue :=
  let sn : Int := if neg then -(Int.ofNat n) else Int.ofNat n
  if 0 ≤ tenExp then .vfloat (sn * (10 : Int) ^ tenExp.toNat) 1
  else .vfloat sn (10 ^ (-tenExp).toNat)

/-- Python `float(s)` on an already-stripped string: sign, decimal core,
optional exponent, or the special spellings inf/infinity/nan. -/
def pyFloatParse (s : String) : Option PValue :=
  let (neg, body) :=
    match s.data with
    | '-' :: rest => (true, String.mk rest)
    | '+' :: rest => (false, String.mk rest)
    | _ => (false, s)
  let lb := pyLower body
  if lb = "inf" || lb = "infinity" then some (.vinf neg)
  else if lb = "nan" then some .nan
  else match listSplitOnChar 'e' lb.data with
  | [m] => (parseDecimalCore (String.mk m)).map (fun p => mkVFloat neg p.1 (-(Int.ofNat p.2)))
  | [m, ex] =>
    let (eneg, ecore) :=
      match ex with
      | '-' :: rest => (true, rest)
      | '+' :: rest => (false, rest)
      | _ => (false, ex)
    match parseDecimalCore (String.mk m), pyParseNat ecore with
    | some p, some e =>
      let expo : Int := (if eneg then -(Int.ofNat e) else Int.ofNat e) - Int.ofNat p.2
      some (mkVFloat neg p.1 expo)
    | _, _ => none
  | _ => none

/-- The `_to_float` closure of the numeric branch. -/
def to_float (coerce : Bool) (x : PValue) : PValue :=
  if pdIsna x then .vnull
  else match x with
  | .vint n => .vfloat n 1
  | .vbool b => .vfloat (if b then 1 else 0) 1
  | .vfloat num den => .vfloat num den
  | .vinf b => .vinf b
  | _ =>
    let xs := pyStrip (pyStr x)
    if xs = "" then (if coerce then .vnull else x)
    else match pyFloatParse (pyReplace xs "," "") with
    | some v => v
    | none => if coerce then .vnull else x

/-- Calendar-date part `YYYY-MM-DD` (best-effort range checks, like the
subset of formats this model parses). -/
def parseDateStr (s : String) : Option (Int × Nat × Nat) :=
  match listSplitOnChar '-' s.data with
  | [y, m, d] =>
    match pyParseNat y, pyParseNat m, pyParseNat d with
    | some yy, some mm, some dd =>
      if 1 ≤ mm && mm ≤ 12 && 1 ≤ dd && dd ≤ 31 then some (Int.ofNat yy, mm, dd)
      else none
    | _, _, _ => none
  | _ => none

/-- Time-of-day part `HH:MM:SS`. -/
def parseTimeStr (s : String) : Option (Nat × Nat × Nat) :=
  match listSplitOnChar ':' s.data with
  | [h, m, sec] =>
    match pyParseNat h, pyParseNat m, pyParseNat sec with
    | some hh, some mi, some ss =>
      if hh ≤ 23 && mi ≤ 59 && ss ≤ 59 then some (hh, mi, ss) else none
    | _, _, _ => none
  | _ => none

/-- Model of `pd.to_datetime(x, errors="coerce")` on one cell: `none` is
NaT.  Parses the ISO subset `YYYY-MM-DD[ HH:MM:SS]`. -/
def pdToDatetimeCell (x : PValue) : Option PValue :=
  match x with
  | .vdatetime y mo d hh mi ss => some (.vdatetime y mo d hh mi ss)
  | .vdate y mo d => some (.vdatetime y mo d 0 0 0)
  | .vstr s =>
    let st := pyStrip s
    match strSplitOnChar ' ' st with
    | [ds] => (parseDateStr ds).map (fun p => .vdatetime p.1 p.2.1 p.2.2 0 0 0)
    | [ds, ts] =>
      match parseDateStr ds, parseTimeStr ts with
      | some p, some q => some (.vdatetime p.1 p.2.1 p.2.2 q.1 q.2.1 q.2.2)
      | _, _ => none
    | _ => none
  | _ => none

/-- Timestamp branch cell: parsed datetime, or None where the parse is NaT
(`parsed.where(~parsed.isna(), None)`). -/
def tsCell (x : PValue) : PValue :=
  match pdToDatetimeCell x with
  | some v => v
  | none => .vnull

/-- Date branch cell: `.dt.date` of the parse, None on NaT. -/
def dateCell (x : PValue) : PValue :=
  match pdToDatetimeCell x with
  | some (.vdatetime y mo d _ _ _) => .vdate y mo d
  | _ => .vnull

/-- Time branch cell: `.dt.time` of the parse, None on NaT. -/
def timeCell (x : PValue) : PValue :=
  match pdToDatetimeCell x with
  | some (.vdatetime _ _ _ hh mi ss) => .vtime hh mi ss
  | _ => .vnull

/-- Strip `\x7b` and `\x7d` from both ends, Python `str.strip` with the
brace pair. -/
def stripBraces (l : List Char) : List Char :=
  let l1 := l.dropWhile (fun c => c == '\x7b' || c == '\x7d')
  (l1.reverse.dropWhile (fun c => c == '\x7b' || c == '\x7d')).reverse

/-- The cleanup `uuid.UUID` performs on its `hex` argument: drop every
`urn:` and `uuid:` occurrence, strip braces at the ends, remove hyphens. -/
def uuidCleanHex (s : String) : String :=
  let s1 := pyReplace (pyReplace s "urn:" "") "uuid:" ""
  String.mk ((stripBraces s1.data).filter (fun c => c != '-'))

/-- Hexadecimal digit as accepted by `int(hex, 16)`. -/
def pyIsHexDigit (c : Char) : Bool :=
  c.isDigit || ('a' ≤ c && c ≤ 'f') || ('A' ≤ c && c ≤ 'F')

/-- Canonical textual form `str(uuid.UUID(...))`: lower-case hex grouped
8-4-4-4-12. -/
def uuidCanonical (hx : String) : String :=
  let h := (pyLower hx).data
  String.mk (h.take 8) ++ "-" ++ String.mk ((h.drop 8).take 4) ++ "-" ++
  String.mk ((h.drop 12).take 4) ++ "-" ++ String.mk ((h.drop 16).take 4) ++ "-" ++
  String.mk (h.drop 20)

/-- `str(uuid.UUID(s))` as a partial function: 32 hex digits after cleanup,
re-serialized canonically (the exotic `int(hex, 16)` tolerances for inner
whitespace or a `0x` prefix are not modelled). -/
def pyUUIDParse (s : String) : Option String :=
  let hx := uuidCleanHex s
  if hx.length = 32 ∧ hx.data.all pyIsHexDigit then some (uuidCanonical hx)
  else none

/-- The `_to_uuid` closure of the UUID branch. -/
def to_uuid (coerce : Bool) (x : PValue) : PValue :=
  if pdIsna x ∨ pyStrip (pyStr x) = "" then .vnull
  else match pyUUIDParse (pyStr x) with
  | some u => .vstr u
  | none => if coerce then .vnull else x

/-- Test that one string starts with a single quote, as
`expr.startswith("'")` in the source. -/
def startsWithSQuote (s : String) : Bool :=
  match s.data with
  | [] => false
  | c :: _ => c == '\''

/-- Shallow acceptor for `json.loads` (documented simplification; no claim
depends on JSON values). -/
def jsonScan (s : String) : Option PValue :=
  if s = "null" then some .vnull
  else if s = "true" then some (.vbool true)
  else if s = "false" then some (.vbool false)
  else if pyStartsWith s "\"" && pyEndsWith s "\"" && decide (2 ≤ s.data.length) &&
          !(listOccurs (s.data.drop 1).dropLast ['"']) then
    some (.vstr (String.mk ((s.data.drop 1).dropLast)))
  else if (pyStartsWith s "\x7b" && pyEndsWith s "\x7d") ||
          (pyStartsWith s "[" && pyEndsWith s "]") then
    some (.vobj s)
  else if pyStartsWith s "+" then none
  else (pyIntOfString s).map (fun n => .vint n)

/-- The `_to_json` closure of the JSON branch. -/
def to_json (coerce : Bool) (x : PValue) : PValue :=
  if pdIsna x then .vnull
  else match x with
  | .vobj raw => .vobj raw
  | _ =>
    let xs := pyStrip (pyStr x)
    if xs = "" then .vnull
    else match jsonScan xs with
    | some j => j
    | none => if coerce then .vnull else .vstr xs

/-- The `_to_str` closure of the text branch (`str(x)` never fails on the
modelled values, so the except arm is dead here). -/
def to_str (_coerce : Bool) (x : PValue) : PValue :=
  if pdIsna x then .vnull else .vstr (pyStr x)

/-- Per-column dispatch of `normalize_rows_for_dest`, in the source's
branch order over the lower-cased declared type. -/
def processCol (t : String) (coerce : Bool) (vs : List PValue) :
    Except String (List PValue) :=
  if isBoolType t then boolBranch coerce vs
  else if isIntType t then .ok (vs.map (to_int coerce))
  else if isNumericType t then .ok (vs.map (to_float coerce))
  else if isTimestampType t then .ok (vs.map tsCell)
  else if isDateType t then .ok (vs.map dateCell)
  else if isTimeType t then .ok (vs.map timeCell)
  else if isUuidType t then .ok (vs.map (to_uuid coerce))
  else if isJsonType t then .ok (vs.map (to_json coerce))
  else if isTextType t then .ok (vs.map (to_str coerce))
  else .ok vs

/-- Process every DataFrame column: a column present in `type_map` runs the
dispatch on its lower-cased type string, others are left untouched. -/
def processColumns (tm : List (String × String)) (coerce : Bool) (b : Batch) :
    List String → Except String (List (String × List PValue))
  | [] => .ok []
  | c :: cs =>
    match (match tmLookup tm c with
           | some t => processCol (pyLower t) coerce (colValues b c)
           | none => .ok (colValues b c)) with
    | .error e => .error e
    | .ok vs =>
      match processColumns tm coerce b cs with
      | .error e => .error e
      | .ok rest => .ok ((c, vs) :: rest)

/-- Final sweep `df.where(pd.notnull(df), None)` on one cell. -/
def sweepCell (v : PValue) : PValue :=
  if pdIsna v then .vnull else v

/-- Rebuild dict row `i` from the processed columns
(`.to_dict(orient="records")`). -/
def rebuildRow (colsOut : List (String × List PValue)) (i : Nat) : Row :=
  colsOut.map (fun p => (p.1, sweepCell (p.2.getD i .nan)))

/-- The `normalize_rows_for_dest` helper of the DB-to-DB tab: an empty
chunk is returned as-is, otherwise every column is dispatched and the
NaN-to-None sweep runs over the whole frame.  The `Except` error is the
`TypeError` that `astype("boolean")` raises. -/
def normalize_rows_for_dest (dict_rows : Batch) (type_map : List (String × String))
    (coerce_invalid_to_null : Bool) : Except String Batch :=
  if dict_rows.isEmpty then .ok dict_rows
  else
    match processColumns type_map coerce_invalid_to_null dict_rows (dfColumns dict_rows) with
    | .error e => .error e
    | .ok colsOut => .ok ((List.range dict_rows.length).map (rebuildRow colsOut))

/-- Batch holding a single column, one field per row (used to state the
single-column claims). -/
def oneColBatch (name : String) (vs : List PValue) : Batch :=
  vs.map (fun v => [(name, v)])

/-- Whether an `Except` result is a success. -/
def exceptOk {ε α : Type} : Except ε α → Bool
  | .ok _ => true
  | .error _ => false

/-!
Embedding of the migration loop of `btn_run_migration` (the Conflict-Aware
Writer plus Run Controller).

Rows at this level are abstract records with a primary-key value, a
payload, and a `poison` flag meaning "any INSERT of this row raises a
non-IntegrityError destination error" (e.g. a type mismatch); an insert of
a row whose key is already present raises `IntegrityError`.  A failed
statement leaves the working destination state unchanged (per-statement
atomicity), and the single `with dst_eng.begin()` context around the whole
while-loop is modelled as: commit the working state when the loop finishes
normally, roll back to the initial state when an exception escapes.
(The engine idealizes the destination as still accepting statements after a
caught failure inside the transaction, which is how the code treats it.)

Counters are exactly the variables `total`, `inserted`, `duplicates`,
`rejected` of the source; `total` is incremented by the run loop when a
chunk is fetched, before the writer runs.  The normalization step between
fetch and write is row-count preserving (see
`normalize_rows_for_dest_length`), so batches here stand for the
already-normalized chunks.
-/

/-- Destination backend kind (`dialect = (dst_type or "").lower()`). -/
inductive Dialect where
  | postgresql
  | mysql
  | mssql
deriving DecidableEq, Repr

/-- The three settings of the conflict selectbox. -/
inductive ConflictPolicy where
  | strict
  | skipDuplicates
  | upsert
deriving DecidableEq, Repr

/-- One already-normalized row as seen by the writer. -/
structure ERow where
  key : Nat
  payload : Nat
  poison : Bool
deriving DecidableEq, Repr

/-- Destination table content: rows as (primary key, payload). -/
abbrev Dest := List (Nat × Nat)

/-- Whether the destination already holds the key. -/
def destHasKey (d : Dest) (k : Nat) : Bool :=
  d.any (fun p => p.1 == k)

/-- Payload stored at a key, if any (first match). -/
def destLookup (d : Dest) (k : Nat) : Option Nat :=
  match d with
  | [] => none
  | p :: rest => if p.1 = k then some p.2 else destLookup rest k

/-- Plain INSERT of one row (no conflict at this point). -/
def insertRow (d : Dest) (r : ERow) : Dest :=
  d ++ [(r.key, r.payload)]

/-- One row of `ON CONFLICT DO UPDATE` / `ON DUPLICATE KEY UPDATE`:
overwrite the existing row's mapped columns, else insert. -/
def upsertRow (d : Dest) (r : ERow) : Dest :=
  if destHasKey d r.key then
    d.map (fun p => if p.1 == r.key then (r.key, r.payload) else p)
  else d ++ [(r.key, r.payload)]

/-- One row of `ON CONFLICT DO NOTHING` / `INSERT IGNORE`: skip on
conflict, else insert. -/
def ignoreInsertRow (d : Dest) (r : ERow) : Dest :=
  if destHasKey d r.key then d else d ++ [(r.key, r.payload)]

/-- Multi-row plain INSERT: the whole statement fails (and changes
nothing) when any row conflicts, intra-batch duplicates included. -/
def strictInsertFold : Dest → List ERow → Option Dest
  | d, [] => some d
  | d, r :: rs =>
    if destHasKey d r.key then none else strictInsertFold (insertRow d r) rs

/-- Outcome of the set-based write attempt for one batch. -/
inductive SetOutcome where
  | ok (d : Dest)
  | integrityViolation
  | otherFailure
  | unsupported
deriving DecidableEq, Repr

/-- The set-based fast path of the writer, from the
`if conf_policy == ...` chain: strict does a plain multi-row insert;
skip-duplicates uses the conflict-ignoring insert on PostgreSQL (when key
columns are known) and MySQL; upsert likewise with the updating insert;
every other combination leaves `try_set_based = False` (`unsupported`).
A poison row makes the statement raise its non-IntegrityError. -/
def attemptSetBased (policy : ConflictPolicy) (dialect : Dialect) (pkKnown : Bool)
    (d : Dest) (rows : List ERow) : SetOutcome :=
  match policy with
  | .strict =>
    if rows.any (fun r => r.poison) then .otherFailure
    else match strictInsertFold d rows with
    | some d2 => .ok d2
    | none => .integrityViolation
  | .skipDuplicates =>
    if dialect = .postgresql ∧ pkKnown then
      if rows.any (fun r => r.poison) then .otherFailure
      else .ok (rows.foldl ignoreInsertRow d)
    else if dialect = .mysql then
      if rows.any (fun r => r.poison) then .otherFailure
      else .ok (rows.foldl ignoreInsertRow d)
    else .unsupported
  | .upsert =>
    if dialect = .postgresql ∧ pkKnown then
      if rows.any (fun r => r.poison) then .otherFailure
      else .ok (rows.foldl upsertRow d)
    else if dialect = .mysql then
      if rows.any (fun r => r.poison) then .otherFailure
      else .ok (rows.foldl upsertRow d)
    else .unsupported

/-- The run-scoped mutable state: the four counters, the reject list and
the working (in-transaction) destination content. -/
structure RunState where
  total : Nat
  inserted : Nat
  duplicates : Nat
  rejected : Nat
  rejectedRows : List (ERow × String)
  dest : Dest
deriving DecidableEq, Repr

/-- Kind of exception escaping the migration loop. -/
inductive AbortKind where
  | integrityAbort
  | otherAbort
deriving DecidableEq, Repr

/-- One iteration of the row-by-row fallback: the per-row INSERT with the
source's except-chain.  An escaping exception carries the state
accumulated so far (the counters survive; the transaction will not). -/
def fallbackRow (policy : ConflictPolicy) (coe : Bool) (st : RunState) (r : ERow) :
    Except (AbortKind × RunState) RunState :=
  if r.poison then
    if coe then
      .ok { st with rejected := st.rejected + 1,
                    rejectedRows := st.rejectedRows ++ [(r, "Exception")] }
    else .error (.otherAbort, st)
  else if destHasKey st.dest r.key then
    if policy = .skipDuplicates ∨ policy = .upsert then
      .ok { st with duplicates := st.duplicates + 1 }
    else if coe then
      .ok { st with rejected := st.rejected + 1,
                    rejectedRows := st.rejectedRows ++ [(r, "IntegrityError")] }
    else .error (.integrityAbort, st)
  else .ok { st with inserted := st.inserted + 1, dest := insertRow st.dest r }

/-- The `for row in dict_rows` fallback loop. -/
def fallbackLoop (policy : ConflictPolicy) (coe : Bool) :
    RunState → List ERow → Except (AbortKind × RunState) RunState
  | st, [] => .ok st
  | st, r :: rs =>
    match fallbackRow policy coe st r with
    | .ok st2 => fallbackLoop policy coe st2 rs
    | .error e => .error e

/-- One batch through the writer: set-based attempt, then the source's
except-handlers.  `IntegrityError` always clears `try_set_based`; any
other exception clears it only under `continue_on_error`, else re-raises;
an unsupported fast path goes straight to the fallback.  The boolean
result records whether the row-by-row fallback ran. -/
def processBatch (policy : ConflictPolicy) (dialect : Dialect) (pkKnown : Bool)
    (coe : Bool) (st : RunState) (rows : List ERow) :
    Except (AbortKind × RunState) RunState × Bool :=
  match attemptSetBased policy dialect pkKnown st.dest rows with
  | .ok d2 => (.ok { st with inserted := st.inserted + rows.length, dest := d2 }, false)
  | .integrityViolation => (fallbackLoop policy coe st rows, true)
  | .otherFailure =>
    if coe then (fallbackLoop policy coe st rows, true)
    else (.error (.otherAbort, st), false)
  | .unsupported => (fallbackLoop policy coe st rows, true)

/-- The `while True` loop of the Run Controller over the already-fetched
chunks: count the chunk into `total`, then run the writer. -/
def runLoop (policy : ConflictPolicy) (dialect : Dialect) (pkKnown : Bool) (coe : Bool) :
    RunState → List (List ERow) → Except (AbortKind × RunState) RunState
  | st, [] => .ok st
  | st, b :: bs =>
    match (processBatch policy dialect pkKnown coe
            { st with total := st.total + b.length } b).1 with
    | .ok st2 => runLoop policy dialect pkKnown coe st2 bs
    | .error e => .error e

/-- Result of a whole run: final counters/state, the escaping exception if
any, and the destination content the `dst_eng.begin()` context leaves
committed. -/
structure RunResult where
  state : RunState
  aborted : Option AbortKind
  committedDest : Dest
deriving DecidableEq, Repr

/-- Fresh run state over the initial destination content. -/
def initState (dest0 : Dest) : RunState :=
  { total := 0, inserted := 0, duplicates := 0, rejected := 0,
    rejectedRows := [], dest := dest0 }

/-- A full run of the migration loop: the whole batch sequence executes
inside the single destination transaction opened at line 489; normal
completion commits the working state, an escaping exception rolls the
destination back to `dest0`. -/
def runMigration (policy : ConflictPolicy) (dialect : Dialect) (pkKnown : Bool)
    (coe : Bool) (dest0 : Dest) (batches : List (List ERow)) : RunResult :=
  match runLoop policy dialect pkKnown coe (initState dest0) batches with
  | .ok st => { state := st, aborted := none, committedDest := st.dest }
  | .error (k, st) => { state := st, aborted := some k, committedDest := dest0 }

/-!
Embedding of the SELECT construction of `btn_run_migration` (lines
454-467) together with the helpers `quote_source_identifier` and
`select_sql_for_migration`.  This is everything that happens to the
mapping between the `if not final_mapping` check and the
`sconn.execute(text(sql_select))` call: no validation against the source
column list occurs anywhere in it.
-/

/-- SQL-special characters that make `quote_source_identifier` pass the
string through as an expression. -/
def sqlSpecialChars : List Char :=
  ['(', ')', ' ', '+', '-', '*', '/', '\'', '"']

/-- The `quote_source_identifier` helper: empty and special-character
strings pass through, otherwise quote for the source backend. -/
def quote_source_identifier (db_type : String) (identifier : String) : String :=
  if identifier = "" then identifier
  else if identifier.data.any (fun c => sqlSpecialChars.contains c) then identifier
  else if pyLower db_type = "postgresql" then "\"" ++ identifier ++ "\""
  else if pyLower db_type = "mssql" then "[" ++ identifier ++ "]"
  else "`" ++ identifier ++ "`"

/-- The `select_sql_for_migration` helper. -/
def select_sql_for_migration (_db_type : String) (qualified_name : String)
    (select_list : List String) : String :=
  "SELECT " ++ String.mk (List.intercalate (", ").data (select_list.map (fun s => s.data)))
    ++ " FROM " ++ qualified_name

/-- Destination-column alias in the source dialect's quoting. -/
def aliasFor (src_type : String) (dest_col : String) : String :=
  if pyLower src_type = "postgresql" then "\"" ++ dest_col ++ "\""
  else if pyLower src_type = "mssql" then "[" ++ dest_col ++ "]"
  else "`" ++ dest_col ++ "`"

/-- One `expr AS alias` item of the select list: a non-NULL, non-quoted
expression is treated as an identifier and quoted, nothing more. -/
def selectItemFor (src_type : String) (dest_col : String) (src_expr : String) : String :=
  let expr := pyStrip src_expr
  let expr :=
    if (pyUpper expr != "NULL") && !(startsWithSQuote expr) then
      quote_source_identifier src_type expr
    else expr
  expr ++ " AS " ++ aliasFor src_type dest_col

/-- The select-list loop over `final_mapping.items()`. -/
def buildSelectList (src_type : String) (final_mapping : List (String × String)) :
    List String :=
  final_mapping.map (fun p => selectItemFor src_type p.1 p.2)

/-- Everything that can stop the run before the source query executes: the
only pre-query failure in the source is the `if not final_mapping` check;
otherwise the SELECT text is built and handed to `sconn.execute`. -/
def prepareMigration (src_type : String) (qualified : String)
    (final_mapping : List (String × String)) : Except String String :=
  if final_mapping.isEmpty then .error "No mappings defined."
  else .ok (select_sql_for_migration src_type qualified
            (buildSelectList src_type final_mapping))

/-! ### Supporting lemmas -/

/-- Normalization preserves the row count of a chunk, so the counters of
the run loop (which measure `len(dict_rows)` before and after the
normalization call) agree. -/
theorem normalize_rows_for_dest_length {b : Batch} {tm : List (String × String)}
    {c : Bool} {b2 : Batch} (h : normalize_rows_for_dest b tm c = .ok b2) :
    b2.length = b.length := by
  unfold normalize_rows_for_dest at h
  split at h
  · simp only [Except.ok.injEq] at h
    subst h; rfl
  · split at h
    · exact absurd h (by simp)
    · simp only [Except.ok.injEq] at h
      subst h; simp

/-- Each row of the fallback loop settles as exactly one of inserted,
duplicate or rejected, and never touches `total`. -/
theorem fallbackRow_counts {policy : ConflictPolicy} {coe : Bool} {st : RunState}
    {r : ERow} {st2 : RunState} (h : fallbackRow policy coe st r = .ok st2) :
    st2.inserted + st2.duplicates + st2.rejected
      = st.inserted + st.duplicates + st.rejected + 1 ∧ st2.total = st.total := by
  unfold fallbackRow at h
  split_ifs at h <;>
  first
    | (simp only [Except.ok.injEq] at h
       subst h
       exact ⟨by simp <;> omega, by simp⟩)
    | exact Except.noConfusion h

/-- The fallback loop settles every row it completes. -/
theorem fallbackLoop_counts {policy : ConflictPolicy} {coe : Bool} :
    ∀ {rs : List ERow} {st st2 : RunState},
    fallbackLoop policy coe st rs = .ok st2 →
    st2.inserted + st2.duplicates + st2.rejected
      = st.inserted + st.duplicates + st.rejected + rs.length ∧ st2.total = st.total := by
  intro rs
  induction rs with
  | nil =>
    intro st st2 h
    unfold fallbackLoop at h
    simp only [Except.ok.injEq] at h
    subst h; simp
  | cons r rs ih =>
    intro st st2 h
    unfold fallbackLoop at h
    cases hr : fallbackRow policy coe st r with
    | ok stm =>
      rw [hr] at h
      have h1 := fallbackRow_counts hr
      have h2 := ih h
      simp only [List.length_cons]
      omega
    | error e =>
      rw [hr] at h
      exact absurd h (by simp)

/-- A batch that finishes (fast path or fallback) settles all of its rows
into the three outcome counters. -/
theorem processBatch_counts {policy : ConflictPolicy} {dialect : Dialect}
    {pkKnown coe : Bool} {st : RunState} {rows : List ERow} {st2 : RunState}
    (h : (processBatch policy dialect pkKnown coe st rows).1 = .ok st2) :
    st2.inserted + st2.duplicates + st2.rejected
      = st.inserted + st.duplicates + st.rejected + rows.length ∧ st2.total = st.total := by
  unfold processBatch at h
  cases hsb : attemptSetBased policy dialect pkKnown st.dest rows <;>
    rw [hsb] at h <;> dsimp only at h
  case ok d2 =>
    simp only [Except.ok.injEq] at h
    subst h
    exact ⟨by simp <;> omega, by simp⟩
  case integrityViolation => exact fallbackLoop_counts h
  case otherFailure =>
    by_cases hc : coe = true
    · rw [if_pos hc] at h
      dsimp only at h
      exact fallbackLoop_counts h
    · rw [if_neg hc] at h
      dsimp only at h
      exact absurd h (by simp)
  case unsupported => exact fallbackLoop_counts h

/-- Loop invariant of the Run Controller: once `total` equals the sum of
the outcome counters it stays so across batches. -/
theorem runLoop_inv {policy : ConflictPolicy} {dialect : Dialect} {pkKnown coe : Bool} :
    ∀ {bs : List (List ERow)} {st st2 : RunState},
    runLoop policy dialect pkKnown coe st bs = .ok st2 →
    st.total = st.inserted + st.duplicates + st.rejected →
    st2.total = st2.inserted + st2.duplicates + st2.rejected := by
  intro bs
  induction bs with
  | nil =>
    intro st st2 h hinv
    unfold runLoop at h
    simp only [Except.ok.injEq] at h
    subst h; exact hinv
  | cons b bs ih =>
    intro st st2 h hinv
    unfold runLoop at h
    cases hpb : (processBatch policy dialect pkKnown coe
        { st with total := st.total + b.length } b).1 with
    | ok stm =>
      rw [hpb] at h
      have h1 := processBatch_counts hpb
      exact ih h (by simp at h1; omega)
    | error e =>
      rw [hpb] at h
      exact absurd h (by simp)

/-- A successful lookup means the key is present. -/
theorem destHasKey_of_lookup {d : Dest} {k v : Nat} (h : destLookup d k = some v) :
    destHasKey d k = true := by
  induction d with
  | nil => simp [destLookup] at h
  | cons p d ih =>
    by_cases hp : p.1 = k
    · simp [destHasKey, hp]
    · rw [destLookup, if_neg hp] at h
      simp [destHasKey, hp, Or.inr (by simpa [destHasKey] using ih h)]

/-- Looking up the conflicting key after the update-on-conflict rewrite
yields the fresh payload. -/
theorem destLookup_updateMap {d : Dest} {k : Nat} (w : Nat) (h : destHasKey d k = true) :
    destLookup (d.map (fun p => if p.1 == k then (k, w) else p)) k = some w := by
  induction d with
  | nil => simp [destHasKey] at h
  | cons p d ih =>
    by_cases hp : p.1 = k
    · simp [destLookup, hp]
    · have hd : destHasKey d k = true := by
        simpa [destHasKey, hp] using h
      simpa [destLookup, hp] using ih hd

/-! ### Claim theorems -/

/-- C1: for every run of the DB-to-DB migration that completes (rejects
included), the final counters satisfy
`total = inserted + duplicates + rejected`. -/
theorem c1_run_counters (policy : ConflictPolicy) (dialect : Dialect)
    (pkKnown coe : Bool) (dest0 : Dest) (batches : List (List ERow))
    (h : (runMigration policy dialect pkKnown coe dest0 batches).aborted = none) :
    (runMigration policy dialect pkKnown coe dest0 batches).state.total
      = (runMigration policy dialect pkKnown coe dest0 batches).state.inserted
        + (runMigration policy dialect pkKnown coe dest0 batches).state.duplicates
        + (runMigration policy dialect pkKnown coe dest0 batches).state.rejected := by
  unfold runMigration at h ⊢
  cases hr : runLoop policy dialect pkKnown coe (initState dest0) batches with
  | ok st => simpa [hr] using runLoop_inv hr (by simp [initState])
  | error e =>
    obtain ⟨k, st⟩ := e
    rw [hr] at h
    exact absurd h (by simp)

/-- Witness for C1 at a concrete completed run with a duplicate. -/
theorem c1_run_counters_witness :
    (runMigration .skipDuplicates .mssql false true [(1, 10)]
        [[⟨1, 11, false⟩, ⟨2, 20, false⟩]]).aborted = none ∧
    (runMigration .skipDuplicates .mssql false true [(1, 10)]
        [[⟨1, 11, false⟩, ⟨2, 20, false⟩]]).state.total
      = (runMigration .skipDuplicates .mssql false true [(1, 10)]
          [[⟨1, 11, false⟩, ⟨2, 20, false⟩]]).state.inserted
        + (runMigration .skipDuplicates .mssql false true [(1, 10)]
            [[⟨1, 11, false⟩, ⟨2, 20, false⟩]]).state.duplicates
        + (runMigration .skipDuplicates .mssql false true [(1, 10)]
            [[⟨1, 11, false⟩, ⟨2, 20, false⟩]]).state.rejected :=
  ⟨by decide, c1_run_counters .skipDuplicates .mssql false true [(1, 10)]
      [[⟨1, 11, false⟩, ⟨2, 20, false⟩]] (by decide)⟩

/-- C2 counterexample: with two batches in a strict run whose second batch
raises a non-integrity error under `continue_on_error = False`, the abort
rolls back batch 1 as well — the committed destination is empty even
though batch 1 finished, contradicting per-batch commit. -/
theorem c2_per_batch_commit_cex :
    (runMigration .strict .mysql false false []
        [[⟨1, 10, false⟩], [⟨2, 20, true⟩]]).aborted = some .otherAbort ∧
    (runMigration .strict .mysql false false []
        [[⟨1, 10, false⟩], [⟨2, 20, true⟩]]).state.inserted = 1 ∧
    (runMigration .strict .mysql false false []
        [[⟨1, 10, false⟩], [⟨2, 20, true⟩]]).committedDest = [] := by
  decide

/-- C2 amended: the whole run executes in one destination-side transaction
(line 489): normal completion commits the final working state, and an
abort anywhere rolls the destination back to its initial content — every
batch of the run, not just the failing one. -/
theorem c2_single_transaction (policy : ConflictPolicy) (dialect : Dialect)
    (pkKnown coe : Bool) (dest0 : Dest) (batches : List (List ERow)) :
    (runMigration policy dialect pkKnown coe dest0 batches).committedDest
      = (if (runMigration policy dialect pkKnown coe dest0 batches).aborted = none
         then (runMigration policy dialect pkKnown coe dest0 batches).state.dest
         else dest0) := by
  unfold runMigration
  cases h : runLoop policy dialect pkKnown coe (initState dest0) batches with
  | ok st => simp
  | error e => obtain ⟨k, st⟩ := e; simp

/-- C3 counterexample: strict policy, `continue_on_error = False`, batch
whose second row conflicts.  The set-based insert raises IntegrityError
and the writer still enters the row fallback, individually inserting the
first row (`inserted = 1`) before aborting on the conflicting one — the
claim requires an immediate abort with no row attempted. -/
theorem c3_strict_abort_cex :
    (processBatch .strict .mysql false false (initState [(1, 10)])
        [⟨2, 20, false⟩, ⟨1, 11, false⟩, ⟨3, 30, false⟩]).2 = true ∧
    (processBatch .strict .mysql false false (initState [(1, 10)])
        [⟨2, 20, false⟩, ⟨1, 11, false⟩, ⟨3, 30, false⟩]).1
      = .error (.integrityAbort,
          { total := 0, inserted := 1, duplicates := 0, rejected := 0,
            rejectedRows := [], dest := [(1, 10), (2, 20)] }) := by
  decide

/-- C3 amended: when the set-based write of a strict batch fails with a
constraint violation, the writer always transitions to the row-by-row
fallback, for either value of `continue_on_error`; with the flag off the
run then aborts at the first failing row of the fallback. -/
theorem c3_fallback_regardless (dialect : Dialect) (pkKnown coe : Bool)
    (st : RunState) (rows : List ERow)
    (h : attemptSetBased .strict dialect pkKnown st.dest rows = .integrityViolation) :
    (processBatch .strict dialect pkKnown coe st rows).2 = true := by
  unfold processBatch
  rw [h]

/-- Witness for C3 amended with `continue_on_error = False`. -/
theorem c3_fallback_regardless_witness :
    attemptSetBased .strict .mysql false (initState [(1, 10)]).dest [⟨1, 11, false⟩]
      = .integrityViolation ∧
    (processBatch .strict .mysql false false (initState [(1, 10)])
        [⟨1, 11, false⟩]).2 = true :=
  ⟨by decide, c3_fallback_regardless .mysql false false (initState [(1, 10)])
      [⟨1, 11, false⟩] (by decide)⟩

/-- C4 counterexample: a mapping whose source expression names no existing
source column (source columns are `id`, `name`) sails through the whole
pre-query phase: the expression is quoted as an identifier and the SELECT
text is produced (and handed to `sconn.execute`), with no
missing-source-column failure anywhere before query execution. -/
theorem c4_missing_column_cex :
    ("ghost" ∉ ["id", "name"]) ∧
    prepareMigration "PostgreSQL" "\"public\".\"t\"" [("d", "ghost")]
      = .ok "SELECT \"ghost\" AS \"d\" FROM \"public\".\"t\"" :=
  ⟨by decide, by decide⟩

/-- C4 amended: the DB-to-DB path performs no validation of source
expressions against the source columns; for every nonempty mapping the
pre-query phase succeeds and emits the SELECT built by quoting each
non-NULL, non-literal expression as an identifier, so an unresolved name
can only fail later, at source query execution. -/
theorem c4_no_prevalidation (src_type qualified : String)
    (final_mapping : List (String × String)) (h : final_mapping ≠ []) :
    prepareMigration src_type qualified final_mapping
      = .ok (select_sql_for_migration src_type qualified
             (buildSelectList src_type final_mapping)) := by
  unfold prepareMigration
  rw [if_neg (by simpa using h)]

/-- Witness for C4 amended at the counterexample mapping. -/
theorem c4_no_prevalidation_witness :
    ([("d", "ghost")] : List (String × String)) ≠ [] ∧
    prepareMigration "PostgreSQL" "\"public\".\"t\"" [("d", "ghost")]
      = .ok (select_sql_for_migration "PostgreSQL" "\"public\".\"t\""
             (buildSelectList "PostgreSQL" [("d", "ghost")])) :=
  ⟨by decide, c4_no_prevalidation "PostgreSQL" "\"public\".\"t\"" [("d", "ghost")]
      (by decide)⟩

/-- C6 counterexample: upsert policy on a backend without a set-based
upsert (MSSQL) routes the batch to the row fallback, where the
conflicting row is skipped as a duplicate: the destination keeps the old
payload 10 instead of being overwritten with 99. -/
theorem c6_upsert_fallback_cex :
    (runMigration .upsert .mssql false true [(1, 10)] [[⟨1, 99, false⟩]]).aborted = none ∧
    (runMigration .upsert .mssql false true [(1, 10)] [[⟨1, 99, false⟩]]).state.duplicates = 1 ∧
    destLookup (runMigration .upsert .mssql false true [(1, 10)]
        [[⟨1, 99, false⟩]]).committedDest 1 = some 10 ∧
    destLookup (runMigration .upsert .mssql false true [(1, 10)]
        [[⟨1, 99, false⟩]]).committedDest 1 ≠ some 99 := by
  decide

/-- C6 amended: under the Upsert policy a conflicting row overwrites the
destination row only on the set-based fast path (update-on-conflict); in
the row-by-row fallback the conflicting row is skipped and counted as a
duplicate, leaving the existing destination row unchanged. -/
theorem c6_upsert_two_paths :
    (∀ (d : Dest) (k vold vnew : Nat), destLookup d k = some vold →
      attemptSetBased .upsert .postgresql true d [⟨k, vnew, false⟩]
        = .ok (upsertRow d ⟨k, vnew, false⟩) ∧
      destLookup (upsertRow d ⟨k, vnew, false⟩) k = some vnew) ∧
    (∀ (st : RunState) (k vnew vold : Nat) (pkKnown coe : Bool),
      destLookup st.dest k = some vold →
      (processBatch .upsert .mssql pkKnown coe st [⟨k, vnew, false⟩]).1
        = .ok { st with duplicates := st.duplicates + 1 } ∧
      (processBatch .upsert .mssql pkKnown coe st [⟨k, vnew, false⟩]).2 = true ∧
      destLookup ({ st with duplicates := st.duplicates + 1 }).dest k = some vold) := by
  constructor
  · intro d k vold vnew h
    have hk := destHasKey_of_lookup h
    constructor
    · simp [attemptSetBased]
    · simpa [upsertRow, hk] using destLookup_updateMap vnew hk
  · intro st k vnew vold pkKnown coe h
    have hk := destHasKey_of_lookup h
    have hsb : attemptSetBased .upsert .mssql pkKnown st.dest [⟨k, vnew, false⟩]
        = .unsupported := by
      simp [attemptSetBased]
    refine ⟨?_, ?_, by simpa using h⟩
    · unfold processBatch
      rw [hsb]
      simp [fallbackLoop, fallbackRow, hk]
    · unfold processBatch
      rw [hsb]

/-- When coercion is on, the string path of the boolean branch never
leaves a plain string behind. -/
theorem boolStrCell_true_not_vstr (x : PValue) :
    isVStr (boolStrCell true x) = false := by
  simp only [boolStrCell]
  split_ifs <;> rfl

/-- The integer path of the boolean branch never produces a string. -/
theorem boolFromIntCell_not_vstr (x : PValue) :
    isVStr (boolFromIntCell x) = false := by
  unfold boolFromIntCell
  cases x <;> simp [isVStr]
  split_ifs <;> rfl

/-- Mapping a string-free cell function over a column leaves nothing for
`astype("boolean")` to fail on. -/
theorem astypeBoolean_map_ok {f : PValue → PValue}
    (hf : ∀ x, isVStr (f x) = false) (vs : List PValue) :
    astypeBoolean (vs.map f) = .ok (vs.map f) := by
  unfold astypeBoolean
  rw [if_neg]
  simp [hf]

/-- With coercion on, every branch of the per-column dispatch succeeds. -/
theorem processCol_ok_of_coerce (t : String) (vs : List PValue) :
    ∃ ws, processCol t true vs = .ok ws := by
  by_cases hb : isBoolType t = true
  · simp only [processCol, hb, if_true]
    unfold boolBranch
    by_cases h1 : is_bool_dtype vs = true
    · simp only [h1, if_true]
      exact ⟨_, rfl⟩
    · by_cases h2 : is_integer_dtype vs = true
      · simp only [h1, h2, if_true, if_false, Bool.false_eq_true]
        exact ⟨_, astypeBoolean_map_ok boolFromIntCell_not_vstr vs⟩
      · simp only [h1, h2, if_false, Bool.false_eq_true]
        exact ⟨_, astypeBoolean_map_ok boolStrCell_true_not_vstr vs⟩
  · simp only [processCol, hb, if_false, Bool.false_eq_true]
    repeat' split
    all_goals exact ⟨_, rfl⟩

/-- With coercion on, the whole column pass succeeds. -/
theorem processColumns_ok_of_coerce (tm : List (String × String)) (b : Batch) :
    ∀ cs : List String, ∃ out, processColumns tm true b cs = .ok out := by
  intro cs
  induction cs with
  | nil => exact ⟨[], rfl⟩
  | cons c cs ih =>
    obtain ⟨out, ho⟩ := ih
    unfold processColumns
    cases htm : tmLookup tm c with
    | none =>
      dsimp only
      rw [ho]
      exact ⟨_, rfl⟩
    | some t =>
      obtain ⟨ws, hw⟩ := processCol_ok_of_coerce (pyLower t) (colValues b c)
      dsimp only
      rw [hw, ho]
      exact ⟨_, rfl⟩

/-- Normalization of a one-row, one-column batch reduces to the dispatch
of that column followed by the NaN sweep. -/
theorem normalize_single {n t : String} {v w : PValue} {c : Bool}
    (h : processCol (pyLower t) c [v] = .ok [w]) :
    normalize_rows_for_dest [[(n, v)]] [(n, t)] c
      = .ok [[(n, sweepCell w)]] := by
  have hcv : colValues [[(n, v)]] n = [v] := by
    simp [colValues, rowLookup, List.find?]
  have htm : tmLookup [(n, t)] n = some t := by
    simp [tmLookup, List.find?]
  unfold normalize_rows_for_dest
  rw [if_neg (by simp)]
  rw [show dfColumns [[(n, v)]] = [n] from rfl]
  unfold processColumns
  rw [htm]
  dsimp only
  rw [hcv, h]
  dsimp only
  rw [show processColumns [(n, t)] c [[(n, v)]] ([] : List String)
        = .ok [] from rfl]
  dsimp only
  rw [show List.range ([[(n, v)]] : Batch).length = [0] from rfl]
  simp [rebuildRow]

/-- Rebuilding a single processed column produces one row per value, each
swept. -/
theorem rebuild_onecol {name : String} :
    ∀ ws : List PValue,
    (List.range ws.length).map (rebuildRow [(name, ws)])
      = ws.map (fun w => [(name, sweepCell w)]) := by
  intro ws
  induction ws with
  | nil => rfl
  | cons w tl ih =>
    simp only [List.length_cons, List.range_succ_eq_map, List.map_cons, List.map_map]
    refine congrArg₂ List.cons (by simp [rebuildRow]) ?_
    have hcomp : (rebuildRow [(name, w :: tl)] ∘ Nat.succ) = rebuildRow [(name, tl)] := by
      funext i
      simp [rebuildRow]
    rw [hcomp, ih]

/-- An opaque declared type falls through every branch of the dispatch. -/
theorem processCol_opaque {t : String} (c : Bool) (vs : List PValue)
    (h : isOpaqueType t = true) : processCol t c vs = .ok vs := by
  simp only [isOpaqueType, Bool.and_eq_true, Bool.not_eq_true'] at h
  obtain ⟨⟨⟨⟨⟨⟨⟨⟨h1, h2⟩, h3⟩, h4⟩, h5⟩, h6⟩, h7⟩, h8⟩, h9⟩ := h
  simp [processCol, h1, h2, h3, h4, h5, h6, h7, h8, h9]

/-- C5 counterexample: with `coerce_invalid_to_null = False` a boolean
column holding an unrecognized string makes the normalizer raise the
`astype("boolean")` TypeError to its caller instead of passing the value
through. -/
theorem c5_normalizer_raises_cex :
    normalize_rows_for_dest [[("b", .vstr "maybe")]] [("b", "boolean")] false
      = .error "TypeError: Need to pass bool-like values" := by
  decide

/-- C5 amended: the normalizer never raises when `coerce_invalid_to_null`
is true (every invalid value resolves internally); with the flag false a
Boolean-class column containing a value outside the recognized boolean
spellings raises to the caller rather than passing the value through. -/
theorem c5_total_when_coerce (b : Batch) (tm : List (String × String)) :
    exceptOk (normalize_rows_for_dest b tm true) = true := by
  unfold normalize_rows_for_dest
  split
  · rfl
  · obtain ⟨out, ho⟩ := processColumns_ok_of_coerce tm b (dfColumns b)
    rw [ho]
    rfl

/-- Witness for C6 amended on both paths at a concrete conflicting row. -/
theorem c6_upsert_two_paths_witness :
    (destLookup [(1, 10)] 1 = some 10 ∧
      destLookup (upsertRow [(1, 10)] ⟨1, 99, false⟩) 1 = some 99) ∧
    (processBatch .upsert .mssql false true (initState [(1, 10)])
        [⟨1, 99, false⟩]).1
      = .ok { initState [(1, 10)] with duplicates := 1 } :=
  ⟨⟨by decide, (c6_upsert_two_paths.1 [(1, 10)] 1 10 99 (by decide)).2⟩,
    (c6_upsert_two_paths.2 (initState [(1, 10)]) 1 99 10 false true (by decide)).1⟩

/-- Extracting the single column of a one-column batch returns its
values. -/
theorem colValues_oneCol (name : String) (vs : List PValue) :
    colValues (oneColBatch name vs) name = vs := by
  induction vs with
  | nil => rfl
  | cons v tl ih =>
    simp only [oneColBatch, colValues, List.map_cons] at ih ⊢
    refine congrArg₂ List.cons ?_ ih
    simp [rowLookup, List.find?]

/-- C7: boolean normalization maps each of `1, "1", "true", "Yes", "ON"`
to true, each of `0, "0", "false", "No", "off"` to false, and any string
outside the recognized spellings to null when `coerce_invalid_to_null`
is on. -/
theorem c7_boolean_round_trip :
    (normalize_rows_for_dest [[("b", .vint 1)]] [("b", "boolean")] true
        = .ok [[("b", .vbool true)]]
      ∧ normalize_rows_for_dest [[("b", .vstr "1")]] [("b", "boolean")] true
        = .ok [[("b", .vbool true)]]
      ∧ normalize_rows_for_dest [[("b", .vstr "true")]] [("b", "boolean")] true
        = .ok [[("b", .vbool true)]]
      ∧ normalize_rows_for_dest [[("b", .vstr "Yes")]] [("b", "boolean")] true
        = .ok [[("b", .vbool true)]]
      ∧ normalize_rows_for_dest [[("b", .vstr "ON")]] [("b", "boolean")] true
        = .ok [[("b", .vbool true)]]) ∧
    (normalize_rows_for_dest [[("b", .vint 0)]] [("b", "boolean")] true
        = .ok [[("b", .vbool false)]]
      ∧ normalize_rows_for_dest [[("b", .vstr "0")]] [("b", "boolean")] true
        = .ok [[("b", .vbool false)]]
      ∧ normalize_rows_for_dest [[("b", .vstr "false")]] [("b", "boolean")] true
        = .ok [[("b", .vbool false)]]
      ∧ normalize_rows_for_dest [[("b", .vstr "No")]] [("b", "boolean")] true
        = .ok [[("b", .vbool false)]]
      ∧ normalize_rows_for_dest [[("b", .vstr "off")]] [("b", "boolean")] true
        = .ok [[("b", .vbool false)]]) ∧
    (∀ s : String,
      truthyList.contains (pyLower (pyStrip s)) = false →
      falsyList.contains (pyLower (pyStrip s)) = false →
      normalize_rows_for_dest [[("b", .vstr s)]] [("b", "boolean")] true
        = .ok [[("b", .vnull)]]) := by
  refine ⟨⟨by decide, by decide, by decide, by decide, by decide⟩,
          ⟨by decide, by decide, by decide, by decide, by decide⟩, ?_⟩
  intro s h1 h2
  have h1m : pyLower (pyStrip s) ∉ truthyList := by simpa using h1
  have h2m : pyLower (pyStrip s) ∉ falsyList := by simpa using h2
  have hb : boolStrCell true (.vstr s) = .vnull := by
    simp [boolStrCell, pyStr, h1m, h2m]
  have hpc : processCol (pyLower "boolean") true [.vstr s] = .ok [.vnull] := by
    rw [show pyLower "boolean" = "boolean" from rfl]
    have hbt : isBoolType "boolean" = true := rfl
    simp only [processCol, hbt, if_true]
    unfold boolBranch
    have hd1 : is_bool_dtype [PValue.vstr s] = false := rfl
    have hd2 : is_integer_dtype [PValue.vstr s] = false := rfl
    simp only [hd1, hd2, Bool.false_eq_true, if_false]
    rw [show ([PValue.vstr s].map (boolStrCell true))
          = [boolStrCell true (.vstr s)] from rfl, hb]
    rfl
  simpa [sweepCell, pdIsna] using
    normalize_single (n := "b") (t := "boolean") hpc

/-- Witness for the universally quantified part of C7 at the unrecognized
string "maybe". -/
theorem c7_boolean_round_trip_witness :
    truthyList.contains (pyLower (pyStrip "maybe")) = false ∧
    falsyList.contains (pyLower (pyStrip "maybe")) = false ∧
    normalize_rows_for_dest [[("b", .vstr "maybe")]] [("b", "boolean")] true
      = .ok [[("b", .vnull)]] :=
  ⟨by decide, by decide, c7_boolean_round_trip.2.2 "maybe" (by decide) (by decide)⟩

/-- C8: a UUID-class value whose cleaned-up text is 32 hex digits
normalizes to the canonical lower-case hyphenated form, for either value
of the coercion flag; a malformed UUID string normalizes to null when the
flag is on. -/
theorem c8_uuid_round_trip :
    (∀ (s : String) (c : Bool),
      pyStrip s ≠ "" →
      (uuidCleanHex s).length = 32 →
      (uuidCleanHex s).data.all pyIsHexDigit = true →
      normalize_rows_for_dest [[("u", .vstr s)]] [("u", "uuid")] c
        = .ok [[("u", .vstr (uuidCanonical (uuidCleanHex s)))]]) ∧
    (∀ s : String, pyUUIDParse s = none →
      normalize_rows_for_dest [[("u", .vstr s)]] [("u", "uuid")] true
        = .ok [[("u", .vnull)]]) := by
  constructor
  · intro s c hne hlen hhex
    have hu : to_uuid c (.vstr s) = .vstr (uuidCanonical (uuidCleanHex s)) := by
      unfold to_uuid
      rw [if_neg (by simp [pdIsna, pyStr, hne])]
      rw [show pyStr (.vstr s) = s from rfl]
      simp only [pyUUIDParse]
      rw [if_pos ⟨hlen, hhex⟩]
    have hpc : processCol (pyLower "uuid") c [.vstr s]
        = .ok [to_uuid c (.vstr s)] := rfl
    rw [hu] at hpc
    simpa [sweepCell, pdIsna] using
      normalize_single (n := "u") (t := "uuid") hpc
  · intro s hnone
    have hu : to_uuid true (.vstr s) = .vnull := by
      unfold to_uuid
      by_cases hg : pdIsna (.vstr s) = true ∨ pyStrip (pyStr (.vstr s)) = ""
      · rw [if_pos hg]
      · rw [if_neg hg]
        rw [show pyStr (.vstr s) = s from rfl, hnone]
        rfl
    have hpc : processCol (pyLower "uuid") true [.vstr s]
        = .ok [to_uuid true (.vstr s)] := rfl
    rw [hu] at hpc
    simpa [sweepCell, pdIsna] using
      normalize_single (n := "u") (t := "uuid") hpc

/-- Witness for C8 at a mixed-case valid UUID and a malformed one. -/
theorem c8_uuid_round_trip_witness :
    pyStrip "A3B8C9D0-1111-2222-3333-444455556666" ≠ "" ∧
    (uuidCleanHex "A3B8C9D0-1111-2222-3333-444455556666").length = 32 ∧
    normalize_rows_for_dest
        [[("u", .vstr "A3B8C9D0-1111-2222-3333-444455556666")]]
        [("u", "uuid")] true
      = .ok [[("u", .vstr (uuidCanonical
          (uuidCleanHex "A3B8C9D0-1111-2222-3333-444455556666")))]] ∧
    pyUUIDParse "not-a-uuid" = none ∧
    normalize_rows_for_dest [[("u", .vstr "not-a-uuid")]] [("u", "uuid")] true
      = .ok [[("u", .vnull)]] :=
  ⟨by decide, by decide,
   c8_uuid_round_trip.1 "A3B8C9D0-1111-2222-3333-444455556666" true
     (by decide) (by decide) (by decide),
   by decide,
   c8_uuid_round_trip.2 "not-a-uuid" (by decide)⟩

/-- C9 counterexample: an Opaque-class column (declared type `geometry`
matches no keyword) holding a NaN does not pass through identically: the
final NaN-to-None sweep of line 429 turns the NaN into None. -/
theorem c9_opaque_nan_cex :
    normalize_rows_for_dest [[("g", .nan)]] [("g", "geometry")] true
      = .ok [[("g", .vnull)]] ∧ PValue.vnull ≠ PValue.nan :=
  ⟨by decide, by decide⟩

/-- C9 amended: an Opaque-class column is left untouched by every coercion
branch, but its cells still go through the final NaN-to-None sweep: the
output values are the input values except that NaN (and None) cells come
out as None. -/
theorem c9_opaque_passthrough (name t : String) (vs : List PValue) (c : Bool)
    (h : isOpaqueType (pyLower t) = true) :
    normalize_rows_for_dest (oneColBatch name vs) [(name, t)] c
      = .ok (vs.map (fun w => [(name, sweepCell w)])) := by
  cases vs with
  | nil => rfl
  | cons v tl =>
    have hcv : colValues (oneColBatch name (v :: tl)) name = v :: tl :=
      colValues_oneCol name (v :: tl)
    have htm : tmLookup [(name, t)] name = some t := by
      simp [tmLookup, List.find?]
    have hpc := processCol_opaque (t := pyLower t) c (v :: tl) h
    unfold normalize_rows_for_dest
    rw [if_neg (by simp [oneColBatch])]
    rw [show dfColumns (oneColBatch name (v :: tl)) = [name] from rfl]
    unfold processColumns
    rw [htm]
    dsimp only
    rw [hcv, hpc]
    dsimp only
    rw [show processColumns [(name, t)] c (oneColBatch name (v :: tl))
          ([] : List String) = .ok [] from rfl]
    dsimp only
    rw [show (oneColBatch name (v :: tl)).length = (v :: tl).length from
          by simp [oneColBatch]]
    rw [rebuild_onecol]

/-- Witness for C9 amended on a two-row opaque column with a NaN. -/
theorem c9_opaque_passthrough_witness :
    isOpaqueType (pyLower "geometry") = true ∧
    normalize_rows_for_dest (oneColBatch "g" [.vint 5, .nan])
        [("g", "geometry")] true
      = .ok ([PValue.vint 5, PValue.nan].map (fun w => [("g", sweepCell w)])) :=
  ⟨by decide, c9_opaque_passthrough "g" "geometry" [.vint 5, .nan] true (by decide)⟩

/-- C10: on an integer-dtyped boolean column the normalizer maps 1 to
true, 0 to false, and every other integer to null, and the
`coerce_invalid_to_null` flag is not consulted (the result is the same
for both values of the flag). -/
theorem c10_int_boolean_branch (k : Int) (c : Bool) :
    normalize_rows_for_dest [[("b", .vint k)]] [("b", "boolean")] c
      = .ok [[("b", if k = 1 then .vbool true
                    else if k = 0 then .vbool false else .vnull)]] := by
  have hpc : processCol (pyLower "boolean") c [.vint k]
      = .ok [boolFromIntCell (.vint k)] := by
    rw [show pyLower "boolean" = "boolean" from rfl]
    have hbt : isBoolType "boolean" = true := rfl
    simp only [processCol, hbt, if_true]
    unfold boolBranch
    have hd1 : is_bool_dtype [PValue.vint k] = false := rfl
    have hd2 : is_integer_dtype [PValue.vint k] = true := rfl
    simp only [hd1, hd2, Bool.false_eq_true, if_false, if_true]
    exact astypeBoolean_map_ok boolFromIntCell_not_vstr [.vint k]
  rw [normalize_single (n := "b") (t := "boolean") hpc]
  by_cases h1 : k = 1 <;> by_cases h0 : k = 0 <;>
    simp_all [boolFromIntCell, sweepCell, pdIsna]

end DataMigration
